import Mathlib

/- Verification of the AtmosAlert PM2.5 forecasting pipeline
(src/backend/predict_pm25.py) against its natural-language specification.

The Python source is shallowly embedded in Lean: machine floats are modelled
as real numbers, pandas missing values (NaN produced by insufficient lag or
rolling history) are modelled as `Option ℝ` with `none` for NaN, timestamps
are modelled as integer day numbers, and library black boxes (the Gregorian
calendar accessors `Series.dt.*`, the seeded Gaussian draws of
`numpy.random.default_rng(42)`, and the fitted `RandomForestRegressor`) are
taken as explicit function parameters, since no claim depends on their
concrete values.  Python `round(x, d)` is modelled as rounding at the d-th
decimal; its tie-breaking (round-half-to-even) differs from `round` on ℝ
only at exact ties, which no claim below touches. -/

namespace AtmosAlert

/-- Risk tier labels of the health-impact mapper
(`calculate_fev1_from_predicted_pm25`, lines 205-209). -/
inductive Risk where
  | Severe
  | High
  | Moderate
  | LowModerate
  | Low
deriving DecidableEq, Repr

/-- Python `round(x, d)`: round to `d` decimal places.  Ties behave
differently (Python rounds half to even) but no statement below evaluates
at a tie. -/
noncomputable def pyRound (d : ℕ) (x : ℝ) : ℝ := round (x * 10 ^ d) / 10 ^ d

/-- Line 198: `BASELINE_FEV1 = 4000.0`. -/
def BASELINE_FEV1 : ℝ := 4000.0

/-- Line 199: `NATURAL_DECLINE_RATE = 30.0`. -/
def NATURAL_DECLINE_RATE : ℝ := 30.0

/-- Line 200: `pm25_impact_rate = (predicted_pm25 / 10.0) * 72.0`. -/
noncomputable def pm25_impact_rate (p : ℝ) : ℝ := p / 10.0 * 72.0

/-- Line 201: `non_linear = (predicted_pm25 / 35.0) ** 1.3 if predicted_pm25 > 35 else 1.0`. -/
noncomputable def non_linear (p : ℝ) : ℝ :=
  if p > 35 then (p / 35.0) ^ (1.3 : ℝ) else 1.0

/-- Line 202: `total_decline = NATURAL_DECLINE_RATE * 5 + pm25_impact_rate * non_linear`. -/
noncomputable def total_decline (p : ℝ) : ℝ :=
  NATURAL_DECLINE_RATE * 5 + pm25_impact_rate p * non_linear p

/-- Line 203: `projected = BASELINE_FEV1 - total_decline`. -/
noncomputable def projected (p : ℝ) : ℝ := BASELINE_FEV1 - total_decline p

/-- Line 204: `pct_capacity = projected / BASELINE_FEV1 * 100.0`. -/
noncomputable def pct_capacity (p : ℝ) : ℝ := projected p / BASELINE_FEV1 * 100.0

/-- Lines 205-209: the strict-less-than risk-tier chain on `pct_capacity`. -/
noncomputable def risk_level (p : ℝ) : Risk :=
  if pct_capacity p < 70 then .Severe
  else if pct_capacity p < 80 then .High
  else if pct_capacity p < 90 then .Moderate
  else if pct_capacity p < 95 then .LowModerate
  else .Low

/-- The record returned by `calculate_fev1_from_predicted_pm25` (lines 210-219). -/
structure HealthImpact where
  current_fev1 : ℝ
  projected_fev1 : ℝ
  current_capacity_percent : ℝ
  projected_capacity_percent : ℝ
  capacity_loss_percent : ℝ
  total_decline_ml : ℝ
  annual_decline_ml : ℝ
  risk_level : Risk

/-- Lines 197-219: the health-impact mapper.  The display fields are rounded
to one decimal place exactly as in the source; the tier is decided on the
unrounded `pct_capacity`. -/
noncomputable def calculate_fev1_from_predicted_pm25 (p : ℝ) : HealthImpact :=
  { current_fev1 := pyRound 1 BASELINE_FEV1
    projected_fev1 := pyRound 1 (projected p)
    current_capacity_percent := 100.0
    projected_capacity_percent := pyRound 1 (pct_capacity p)
    capacity_loss_percent := pyRound 1 (100.0 - pct_capacity p)
    total_decline_ml := pyRound 1 (total_decline p)
    annual_decline_ml := pyRound 1 (total_decline p / 5.0)
    risk_level := risk_level p }

/-- Reference definition written from the spec text (section 4.5):
`excess_rate = (predicted_concentration / 10) * 72`. -/
noncomputable def specExcessRate (p : ℝ) : ℝ := p / 10 * 72

/-- Spec section 4.5: `nonlinear_multiplier = (p / 35) ^ 1.3 if p > 35 else 1.0`. -/
noncomputable def specNonlinearMultiplier (p : ℝ) : ℝ :=
  if p > 35 then (p / 35) ^ (1.3 : ℝ) else 1.0

/-- Spec section 4.5: `total_decline = natural_annual_decline * horizon_years
+ excess_rate * nonlinear_multiplier` with decline 30 and horizon 5. -/
noncomputable def specTotalDecline (p : ℝ) : ℝ :=
  30 * 5 + specExcessRate p * specNonlinearMultiplier p

/-- Spec section 4.5: `projected_capacity = baseline_capacity - total_decline`
with baseline 4000. -/
noncomputable def specProjectedCapacity (p : ℝ) : ℝ := 4000 - specTotalDecline p

/-- Spec section 4.5: `capacity_pct = projected_capacity / baseline_capacity * 100`. -/
noncomputable def specCapacityPct (p : ℝ) : ℝ := specProjectedCapacity p / 4000 * 100

/-- Spec section 4.5 risk-tier table: `<70 Severe, <80 High, <90 Moderate,
<95 Low-Moderate, else Low`, strict thresholds. -/
noncomputable def specRiskTier (c : ℝ) : Risk :=
  if c < 70 then .Severe
  else if c < 80 then .High
  else if c < 90 then .Moderate
  else if c < 95 then .LowModerate
  else .Low

/-- C1: for every non-negative concentration the health-impact mapper computes
exactly the reference quantities of spec section 4.5 (excess rate, nonlinear
multiplier, total decline, projected capacity, capacity percentage) and
assigns the risk tier by strict-less-than thresholds on the unrounded
capacity percentage, so a capacity percentage of exactly 70 yields High (not
Severe), 80 yields Moderate, 90 yields Low-Moderate and 95 yields Low. -/
theorem C1_health_mapper_matches_spec (p : ℝ) (hp : 0 ≤ p) :
    pm25_impact_rate p = specExcessRate p ∧
    non_linear p = specNonlinearMultiplier p ∧
    total_decline p = specTotalDecline p ∧
    projected p = specProjectedCapacity p ∧
    pct_capacity p = specCapacityPct p ∧
    (calculate_fev1_from_predicted_pm25 p).risk_level = specRiskTier (pct_capacity p) ∧
    (pct_capacity p = 70 → (calculate_fev1_from_predicted_pm25 p).risk_level = Risk.High) ∧
    (pct_capacity p = 80 → (calculate_fev1_from_predicted_pm25 p).risk_level = Risk.Moderate) ∧
    (pct_capacity p = 90 → (calculate_fev1_from_predicted_pm25 p).risk_level = Risk.LowModerate) ∧
    (pct_capacity p = 95 → (calculate_fev1_from_predicted_pm25 p).risk_level = Risk.Low) := by
  have h1 : pm25_impact_rate p = specExcessRate p := by
    unfold pm25_impact_rate specExcessRate; norm_num
  have h2 : non_linear p = specNonlinearMultiplier p := by
    unfold non_linear specNonlinearMultiplier; norm_num
  have h3 : total_decline p = specTotalDecline p := by
    unfold total_decline specTotalDecline NATURAL_DECLINE_RATE
    rw [h1, h2]; norm_num
  have h4 : projected p = specProjectedCapacity p := by
    unfold projected specProjectedCapacity BASELINE_FEV1
    rw [h3]; norm_num
  have h5 : pct_capacity p = specCapacityPct p := by
    unfold pct_capacity specCapacityPct BASELINE_FEV1
    rw [h4]; norm_num
  have h6 : (calculate_fev1_from_predicted_pm25 p).risk_level = specRiskTier (pct_capacity p) := by
    unfold calculate_fev1_from_predicted_pm25 risk_level specRiskTier
    rfl
  refine ⟨h1, h2, h3, h4, h5, h6, ?_, ?_, ?_, ?_⟩ <;> intro hb <;>
    simp [calculate_fev1_from_predicted_pm25, risk_level, hb] <;> norm_num

/-- C1 witness: the mapper agrees with the spec reference at concentration 0. -/
theorem C1_health_mapper_matches_spec_witness :
    (0 : ℝ) ≤ 0 ∧
    (pm25_impact_rate 0 = specExcessRate 0 ∧
      non_linear 0 = specNonlinearMultiplier 0 ∧
      total_decline 0 = specTotalDecline 0 ∧
      projected 0 = specProjectedCapacity 0 ∧
      pct_capacity 0 = specCapacityPct 0 ∧
      (calculate_fev1_from_predicted_pm25 0).risk_level = specRiskTier (pct_capacity 0) ∧
      (pct_capacity 0 = 70 → (calculate_fev1_from_predicted_pm25 0).risk_level = Risk.High) ∧
      (pct_capacity 0 = 80 → (calculate_fev1_from_predicted_pm25 0).risk_level = Risk.Moderate) ∧
      (pct_capacity 0 = 90 → (calculate_fev1_from_predicted_pm25 0).risk_level = Risk.LowModerate) ∧
      (pct_capacity 0 = 95 → (calculate_fev1_from_predicted_pm25 0).risk_level = Risk.Low)) :=
  ⟨le_refl 0, C1_health_mapper_matches_spec 0 (le_refl 0)⟩

/-- The pollution-driven part of the decline, `pm25_impact_rate * non_linear`
(the second summand of line 202), is monotone nondecreasing on positive
concentrations. -/
theorem impact_term_mono (p1 p2 : ℝ) (h0 : 0 < p1) (h12 : p1 ≤ p2) :
    pm25_impact_rate p1 * non_linear p1 ≤ pm25_impact_rate p2 * non_linear p2 := by
  have h02 : 0 < p2 := lt_of_lt_of_le h0 h12
  unfold pm25_impact_rate non_linear
  rcases le_or_lt p2 35 with h2 | h2
  · rw [if_neg (by linarith), if_neg (by linarith)]
    nlinarith
  · rcases le_or_lt p1 35 with h1 | h1
    · rw [if_neg (by linarith), if_pos h2]
      have hm : 1 ≤ (p2 / 35.0) ^ (1.3 : ℝ) := by
        apply Real.one_le_rpow _ (by norm_num)
        rw [le_div_iff (by norm_num)]; linarith
      have hbase : p1 / 10.0 * 72.0 ≤ p2 / 10.0 * 72.0 := by linarith
      calc p1 / 10.0 * 72.0 * 1.0 = p1 / 10.0 * 72.0 := by ring
        _ ≤ p2 / 10.0 * 72.0 := hbase
        _ = p2 / 10.0 * 72.0 * 1 := by ring
        _ ≤ p2 / 10.0 * 72.0 * ((p2 / 35.0) ^ (1.3 : ℝ)) := by
            apply mul_le_mul_of_nonneg_left hm (by positivity)
    · rw [if_pos h1, if_pos h2]
      have ha : (p1 / 35.0) ^ (1.3 : ℝ) ≤ (p2 / 35.0) ^ (1.3 : ℝ) := by
        apply Real.rpow_le_rpow (by positivity) _ (by norm_num)
        apply div_le_div_of_nonneg_right h12 (by norm_num)
      apply mul_le_mul (by linarith) ha (Real.rpow_nonneg (by positivity) _) (by positivity)

/-- C9: projected capacity, and hence projected capacity percentage, is
non-increasing in the predicted concentration on positive inputs. -/
theorem C9_projected_capacity_antitone (p1 p2 : ℝ) (h0 : 0 < p1) (h12 : p1 ≤ p2) :
    projected p2 ≤ projected p1 ∧ pct_capacity p2 ≤ pct_capacity p1 := by
  have key := impact_term_mono p1 p2 h0 h12
  constructor
  · unfold projected total_decline BASELINE_FEV1 NATURAL_DECLINE_RATE
    linarith
  · unfold pct_capacity projected total_decline BASELINE_FEV1 NATURAL_DECLINE_RATE
    nlinarith

/-- C9 witness: concrete monotonicity instance at concentrations 1 and 2. -/
theorem C9_projected_capacity_antitone_witness :
    (0 : ℝ) < 1 ∧ (1 : ℝ) ≤ 2 ∧
      (projected 2 ≤ projected 1 ∧ pct_capacity 2 ≤ pct_capacity 1) :=
  ⟨by norm_num, by norm_num, C9_projected_capacity_antitone 1 2 (by norm_num) (by norm_num)⟩

/-- C10: at concentration 7 the unrounded capacity percentage is 94.99, which
is strictly below the 95 boundary, so the tier is Low-Moderate; yet the
reported `projected_capacity_percent` field, rounded to one decimal place,
displays exactly 95.  The tier is decided on the unrounded value. -/
theorem C10_reported_boundary_tier_mismatch :
    pct_capacity 7 < 95 ∧
    (calculate_fev1_from_predicted_pm25 7).projected_capacity_percent = 95 ∧
    (calculate_fev1_from_predicted_pm25 7).risk_level = Risk.LowModerate := by
  have hpct : pct_capacity 7 = 94.99 := by
    unfold pct_capacity projected total_decline pm25_impact_rate non_linear
      BASELINE_FEV1 NATURAL_DECLINE_RATE
    norm_num
  refine ⟨by rw [hpct]; norm_num, ?_, ?_⟩
  · show pyRound 1 (pct_capacity 7) = 95
    rw [hpct]
    unfold pyRound
    rw [round_eq]
    have hfloor : ⌊(94.99 : ℝ) * 10 ^ 1 + 1 / 2⌋ = (950 : ℤ) := by
      rw [Int.floor_eq_iff]
      constructor <;> norm_num
    rw [hfloor]
    norm_num
  · show risk_level 7 = Risk.LowModerate
    unfold risk_level
    rw [hpct]
    norm_num

/-- One row of the historical series DataFrame (columns `timestamp`,
`pm25_value`, `location` built at lines 60-66 and 90): timestamps are
modelled as integer day numbers. -/
structure Obs where
  timestamp : ℤ
  pm25_value : ℝ
  location : String

instance : Inhabited Obs := ⟨⟨0, 0, ""⟩⟩

/-- Value of `numpy.linspace(a, b, n)` at index `i` (used at lines 85-86). -/
noncomputable def linspace (a b : ℝ) (n i : ℕ) : ℝ :=
  if n ≤ 1 then a else a + (b - a) * i / ((n : ℝ) - 1)

/-- The PM2.5 value of the `i`-th synthetic sample (lines 84-89):
base 35, yearly sine seasonality, linear trend to 5, Gaussian noise drawn
from `default_rng(42)` (the fixed-seed draws are the function `gauss`),
weekday/weekend offset, clipped to [5, 150]. -/
noncomputable def synthetic_pm25 (gauss : ℕ → ℝ) (days i : ℕ) : ℝ :=
  max 5 (min (35 + 15 * Real.sin (linspace 0 (4 * Real.pi) days i + Real.pi / 2)
      + linspace 0 5 days i + gauss i + (if i % 7 < 5 then (5 : ℝ) else -3)) 150)

/-- Lines 79-90, `generate_synthetic_historical_data`: `days` daily samples
ending the day before `now` (the ambient `datetime.now()` of the call,
made an explicit argument here), ascending timestamps `now - days .. now - 1`. -/
noncomputable def generate_synthetic_historical_data (gauss : ℕ → ℝ)
    (location : String) (days : ℕ) (now : ℤ) : List Obs :=
  (List.range days).map fun (i : ℕ) =>
    { timestamp := now - ((days : ℤ) - (i : ℤ))
      pm25_value := synthetic_pm25 gauss days i
      location := location }

/-- C4 counterexample: the synthetic generator anchors its timestamps at the
wall-clock `datetime.now()` of the call, so two calls with identical
arguments made at different times (here day 0 and day 1) give different
timestamps, hence output that is not byte-identical. -/
theorem C4_counterexample_timestamps_differ :
    generate_synthetic_historical_data (fun _ => 0) "Chicago, IL" 1 0 ≠
      generate_synthetic_historical_data (fun _ => 0) "Chicago, IL" 1 1 := by
  intro h
  have ht := congrArg (fun l => (l.map Obs.timestamp).head?.getD 0) h
  simp only [generate_synthetic_historical_data, List.range_succ] at ht
  simp at ht

/-- C4 amended: the concentration values and their order are identical
across any two calls with the same arguments, whatever the two wall-clock
times; the locations likewise.  Only the timestamps depend on the call
time. -/
theorem C4_values_deterministic (gauss : ℕ → ℝ) (loc : String) (days : ℕ)
    (now1 now2 : ℤ) :
    (generate_synthetic_historical_data gauss loc days now1).map Obs.pm25_value =
      (generate_synthetic_historical_data gauss loc days now2).map Obs.pm25_value ∧
    (generate_synthetic_historical_data gauss loc days now1).map Obs.location =
      (generate_synthetic_historical_data gauss loc days now2).map Obs.location := by
  constructor <;> simp [generate_synthetic_historical_data, List.map_map, Function.comp]

/-- The calendar accessors `Series.dt.year/month/dayofyear/dayofweek` and
`isocalendar().week` (lines 97-101) are library black boxes over the
Gregorian calendar; they are total functions of the timestamp and no claim
depends on their values, so they are taken as an explicit parameter. -/
structure Calendar where
  year : ℤ → ℤ
  month : ℤ → ℤ
  day_of_year : ℤ → ℤ
  day_of_week : ℤ → ℤ
  week_of_year : ℤ → ℤ

/-- Pandas `Series.mean()`: NaN (modelled `none`) on an empty series. -/
noncomputable def seriesMean (l : List ℝ) : Option ℝ :=
  if l.isEmpty then none else some (l.sum / l.length)

/-- Pandas `Series.std()` with the default `ddof = 1`: NaN (modelled
`none`) when fewer than 2 values are present. -/
noncomputable def seriesStd (l : List ℝ) : Option ℝ :=
  if l.length < 2 then none
  else some (Real.sqrt ((l.map (fun x => (x - l.sum / l.length) ^ 2)).sum / ((l.length : ℝ) - 1)))

/-- Pandas `Series.shift(k)` evaluated at row `i`: the value `k` row
positions earlier, NaN (modelled `none`) for the first `k` rows. -/
def shiftAt (xs : List ℝ) (k i : ℕ) : Option ℝ :=
  if k ≤ i then xs.get? (i - k) else none

/-- The trailing window of width at most `w` ending at row `i` (inclusive),
as used by pandas `Series.rolling(w)`. -/
def rollWindow (xs : List ℝ) (w i : ℕ) : List ℝ :=
  (xs.take (i + 1)).drop (i + 1 - w)

/-- `rolling(w, min_periods=1).mean()` at row `i` (lines 109-110). -/
noncomputable def rollingMean (xs : List ℝ) (w i : ℕ) : Option ℝ :=
  seriesMean (rollWindow xs w i)

/-- `rolling(w, min_periods=1).std()` at row `i` (line 111); the sample
standard deviation is NaN whenever the window holds fewer than 2 rows. -/
noncomputable def rollingStd (xs : List ℝ) (w i : ℕ) : Option ℝ :=
  seriesStd (rollWindow xs w i)

/-- Minimum of an integer column, `Series.min()` (line 112); only applied
to nonempty series. -/
def listMinZ (l : List ℤ) : ℤ :=
  match l with
  | [] => 0
  | a :: t => t.foldl min a

/-- Maximum of an integer column, `Series.max()` (line 150); only applied
to nonempty series. -/
def listMaxZ (l : List ℤ) : ℤ :=
  match l with
  | [] => 0
  | a :: t => t.foldl max a

/-- One row of the feature table built by `create_time_series_features`
(lines 94-113).  Columns that pandas can leave as NaN (the three lags and
the 7-row rolling standard deviation; the rolling means are protected by
`min_periods=1`) are `Option ℝ`. -/
structure FeatureRow where
  timestamp : ℤ
  pm25_value : ℝ
  year : ℤ
  month : ℤ
  day_of_year : ℤ
  day_of_week : ℤ
  week_of_year : ℤ
  month_sin : ℝ
  month_cos : ℝ
  day_sin : ℝ
  day_cos : ℝ
  pm25_lag_1 : Option ℝ
  pm25_lag_7 : Option ℝ
  pm25_lag_30 : Option ℝ
  pm25_rolling_7 : Option ℝ
  pm25_rolling_30 : Option ℝ
  pm25_rolling_std_7 : Option ℝ
  days_since_start : ℤ

/-- The feature row derived from observation `i` of the input series
(lines 96-112, one row of the mutated DataFrame). -/
noncomputable def mkFeatureRow (cal : Calendar) (df : List Obs) (i : ℕ) : FeatureRow :=
  let o := (df.get? i).getD default
  let xs := df.map Obs.pm25_value
  { timestamp := o.timestamp
    pm25_value := o.pm25_value
    year := cal.year o.timestamp
    month := cal.month o.timestamp
    day_of_year := cal.day_of_year o.timestamp
    day_of_week := cal.day_of_week o.timestamp
    week_of_year := cal.week_of_year o.timestamp
    month_sin := Real.sin (2 * Real.pi * (cal.month o.timestamp : ℝ) / 12)
    month_cos := Real.cos (2 * Real.pi * (cal.month o.timestamp : ℝ) / 12)
    day_sin := Real.sin (2 * Real.pi * (cal.day_of_year o.timestamp : ℝ) / 365)
    day_cos := Real.cos (2 * Real.pi * (cal.day_of_year o.timestamp : ℝ) / 365)
    pm25_lag_1 := shiftAt xs 1 i
    pm25_lag_7 := shiftAt xs 7 i
    pm25_lag_30 := shiftAt xs 30 i
    pm25_rolling_7 := rollingMean xs 7 i
    pm25_rolling_30 := rollingMean xs 30 i
    pm25_rolling_std_7 := rollingStd xs 7 i
    days_since_start := o.timestamp - listMinZ (df.map Obs.timestamp) }

/-- A row survives `df.dropna()` (line 113) exactly when none of its
fallible columns is NaN. -/
def rowComplete (r : FeatureRow) : Bool :=
  r.pm25_lag_1.isSome && r.pm25_lag_7.isSome && r.pm25_lag_30.isSome &&
    r.pm25_rolling_7.isSome && r.pm25_rolling_30.isSome && r.pm25_rolling_std_7.isSome

/-- Lines 94-113, `create_time_series_features`: derive every column for
every row, then drop the rows containing a NaN. -/
noncomputable def create_time_series_features (cal : Calendar) (df : List Obs) :
    List FeatureRow :=
  ((List.range df.length).map (mkFeatureRow cal df)).filter rowComplete

lemma shiftAt_isSome_iff (xs : List ℝ) (k i : ℕ) (hi : i < xs.length) :
    (shiftAt xs k i).isSome ↔ k ≤ i := by
  unfold shiftAt
  split_ifs with h
  · simp [List.getElem?_eq_getElem (show i - k < xs.length by omega), h]
  · simp [h]

lemma rollWindow_length (xs : List ℝ) (w i : ℕ) (hi : i < xs.length) :
    (rollWindow xs w i).length = min w (i + 1) := by
  unfold rollWindow
  simp only [List.length_drop, List.length_take]
  omega

lemma rollingMean_isSome (xs : List ℝ) (w i : ℕ) (hw : 1 ≤ w) (hi : i < xs.length) :
    (rollingMean xs w i).isSome := by
  unfold rollingMean seriesMean
  split_ifs with h
  · rw [List.isEmpty_iff_length_eq_zero, rollWindow_length xs w i hi] at h
    omega
  · simp

lemma rollingStd_isSome_iff (xs : List ℝ) (w i : ℕ) (hi : i < xs.length) :
    (rollingStd xs w i).isSome ↔ 2 ≤ min w (i + 1) := by
  unfold rollingStd seriesStd
  rw [rollWindow_length xs w i hi]
  split_ifs with h
  · simp; omega
  · simp; omega

/-- A derived row survives `dropna` exactly when its index has 30 rows of
trailing history: the binding constraint is the 30-row lag, with the 1-row
and 7-row lags and the 2-row requirement of the rolling standard deviation
implied. -/
lemma rowComplete_iff (cal : Calendar) (df : List Obs) (i : ℕ) (hi : i < df.length) :
    rowComplete (mkFeatureRow cal df i) = true ↔ 30 ≤ i := by
  have hx : i < (df.map Obs.pm25_value).length := by simpa using hi
  have l1 := shiftAt_isSome_iff (df.map Obs.pm25_value) 1 i hx
  have l7 := shiftAt_isSome_iff (df.map Obs.pm25_value) 7 i hx
  have l30 := shiftAt_isSome_iff (df.map Obs.pm25_value) 30 i hx
  have m7 := rollingMean_isSome (df.map Obs.pm25_value) 7 i (by norm_num) hx
  have m30 := rollingMean_isSome (df.map Obs.pm25_value) 30 i (by norm_num) hx
  have s7 := rollingStd_isSome_iff (df.map Obs.pm25_value) 7 i hx
  simp only [rowComplete, mkFeatureRow, Bool.and_eq_true]
  constructor
  · rintro ⟨⟨⟨⟨⟨-, -⟩, a30⟩, -⟩, -⟩, -⟩
    exact l30.mp a30
  · intro h
    exact ⟨⟨⟨⟨⟨l1.mpr (by omega), l7.mpr (by omega)⟩, l30.mpr h⟩, m7⟩, m30⟩,
      s7.mpr (by omega)⟩

lemma filter_map_comm {α β : Type} (f : α → β) (p : β → Bool) (l : List α) :
    (l.map f).filter p = (l.filter (fun a => p (f a))).map f := by
  induction l with
  | nil => rfl
  | cons a t ih =>
    by_cases h : p (f a) <;> simp [List.filter_cons, h, ih]

lemma range_filter_ge_length (N k : ℕ) :
    ((List.range N).filter (fun i => decide (k ≤ i))).length = N - k := by
  induction N with
  | zero => simp
  | succ n ih =>
    rw [List.range_succ, List.filter_append, List.length_append, ih]
    by_cases h : k ≤ n <;> simp [List.filter_cons, h] <;> omega

/-- Row-count law of the feature builder: the rows dropped by `dropna` are
exactly the first 30, for any input series. -/
lemma create_features_length (cal : Calendar) (df : List Obs) :
    (create_time_series_features cal df).length = df.length - 30 := by
  unfold create_time_series_features
  rw [filter_map_comm, List.length_map]
  have hcongr : List.filter (fun i => rowComplete (mkFeatureRow cal df i))
      (List.range df.length) =
      List.filter (fun i => decide (30 ≤ i)) (List.range df.length) := by
    apply List.filter_congr
    intro i hi
    rw [List.mem_range] at hi
    by_cases h : 30 ≤ i
    · have := (rowComplete_iff cal df i hi).mpr h
      simp [this, h]
    · have hne : rowComplete (mkFeatureRow cal df i) ≠ true :=
        fun hc => h ((rowComplete_iff cal df i hi).mp hc)
      simp only [Bool.not_eq_true] at hne
      simp [hne, h]
  rw [hcongr]
  exact range_filter_ge_length df.length 30

/-- C3: for a dense daily series of length N exceeding 30 rows, the feature
builder keeps exactly N - 30 rows, and in every kept row all fallible
feature columns (the three lags, the two rolling means, the 7-row rolling
standard deviation) are defined; the remaining ten columns (calendar and
cyclical fields and the day offset) are total functions of the timestamp by
construction. -/
theorem C3_feature_builder_shape (cal : Calendar) (df : List Obs)
    (hdense : ∀ i, i < df.length →
      ((df.get? i).getD default).timestamp = ((df.get? 0).getD default).timestamp + i)
    (hN : 30 < df.length) :
    (create_time_series_features cal df).length = df.length - 30 ∧
    ∀ r ∈ create_time_series_features cal df,
      r.pm25_lag_1.isSome ∧ r.pm25_lag_7.isSome ∧ r.pm25_lag_30.isSome ∧
        r.pm25_rolling_7.isSome ∧ r.pm25_rolling_30.isSome ∧ r.pm25_rolling_std_7.isSome := by
  refine ⟨create_features_length cal df, fun r hr => ?_⟩
  unfold create_time_series_features at hr
  have hc := (List.mem_filter.mp hr).2
  unfold rowComplete at hc
  simp only [Bool.and_eq_true] at hc
  exact ⟨hc.1.1.1.1.1, hc.1.1.1.1.2, hc.1.1.1.2, hc.1.1.2, hc.1.2, hc.2⟩

/-- A trivial concrete calendar used to instantiate theorems at concrete
inputs; the claims hold for every calendar. -/
def trivCal : Calendar := ⟨fun _ => 0, fun _ => 0, fun _ => 0, fun _ => 0, fun _ => 0⟩

/-- A concrete dense daily series of 31 observations. -/
noncomputable def dfC3 : List Obs :=
  (List.range 31).map fun (i : ℕ) => { timestamp := (i : ℤ), pm25_value := 0, location := "w" }

/-- C3 witness: on the concrete 31-row dense series the feature builder
keeps exactly one row, with every fallible column defined. -/
theorem C3_feature_builder_shape_witness :
    (∀ i, i < dfC3.length →
      ((dfC3.get? i).getD default).timestamp = ((dfC3.get? 0).getD default).timestamp + i) ∧
    30 < dfC3.length ∧
    ((create_time_series_features trivCal dfC3).length = dfC3.length - 30 ∧
      ∀ r ∈ create_time_series_features trivCal dfC3,
        r.pm25_lag_1.isSome ∧ r.pm25_lag_7.isSome ∧ r.pm25_lag_30.isSome ∧
          r.pm25_rolling_7.isSome ∧ r.pm25_rolling_30.isSome ∧
          r.pm25_rolling_std_7.isSome) := by
  have hd : ∀ i, i < dfC3.length →
      ((dfC3.get? i).getD default).timestamp = ((dfC3.get? 0).getD default).timestamp + i := by
    intro i hi
    have hlen : dfC3.length = 31 := by simp [dfC3]
    rw [hlen] at hi
    have h0 : (31 : ℕ) > 0 := by norm_num
    simp [dfC3, List.getElem?_map, List.getElem?_range, hi, h0]
  have hn : 30 < dfC3.length := by simp [dfC3]
  exact ⟨hd, hn, C3_feature_builder_shape trivCal dfC3 hd hn⟩

/-- Held-out metrics reported by training (lines 137-141). -/
structure Metrics where
  r2 : ℝ
  rmse : ℝ
  mae : ℝ

/-- The ordered 16-column feature vector of a row, following `feature_cols`
(lines 119-125).  Rows reaching the model have passed `dropna`, so the
`Option` columns are all `some` and `getD 0` extracts their exact values. -/
noncomputable def featureVec (r : FeatureRow) : List ℝ :=
  [(r.year : ℝ), (r.month : ℝ), (r.day_of_year : ℝ), (r.day_of_week : ℝ),
    (r.week_of_year : ℝ), r.month_sin, r.month_cos, r.day_sin, r.day_cos,
    r.pm25_lag_1.getD 0, r.pm25_lag_7.getD 0, r.pm25_lag_30.getD 0,
    r.pm25_rolling_7.getD 0, r.pm25_rolling_30.getD 0, r.pm25_rolling_std_7.getD 0,
    (r.days_since_start : ℝ)]

/-- `sklearn.metrics.r2_score`. -/
noncomputable def r2_score (y yhat : List ℝ) : ℝ :=
  1 - ((y.zip yhat).map (fun q => (q.1 - q.2) ^ 2)).sum /
    ((y.map (fun v => (v - y.sum / y.length) ^ 2)).sum)

/-- `sklearn.metrics.mean_squared_error`. -/
noncomputable def mean_squared_error (y yhat : List ℝ) : ℝ :=
  ((y.zip yhat).map (fun q => (q.1 - q.2) ^ 2)).sum / y.length

/-- `sklearn.metrics.mean_absolute_error`. -/
noncomputable def mean_absolute_error (y yhat : List ℝ) : ℝ :=
  ((y.zip yhat).map (fun q => |q.1 - q.2|)).sum / y.length

/-- Lines 128-130: `split = int(len(X) * 0.8)`, train = first `split` rows,
test = the rest, no shuffling.  `int(len * 0.8)` on a float equals
`4 * len / 5` in integer arithmetic. -/
noncomputable def trainTestSplit (feats : List FeatureRow) :
    List FeatureRow × List FeatureRow :=
  (feats.take (feats.length * 4 / 5), feats.drop (feats.length * 4 / 5))

/-- Error surfaced when the training slice is empty: `model.fit` raises
`ValueError` on an input with zero samples (line 135), and
`train_pm25_forecasting_model` has no handler, so it propagates. -/
def noTrainableDataMsg : String := "no trainable data"

/-- Lines 117-142, `train_pm25_forecasting_model`.  The bagged-tree
regressor is a library black box: `fit` maps the training matrix and
targets to a prediction function. -/
noncomputable def train_pm25_forecasting_model
    (fit : List (List ℝ) → List ℝ → (List ℝ → ℝ)) (cal : Calendar) (df : List Obs) :
    Except String ((List ℝ → ℝ) × Metrics) :=
  let df_feat := create_time_series_features cal df
  let tr := (trainTestSplit df_feat).1
  let te := (trainTestSplit df_feat).2
  if tr.isEmpty then .error noTrainableDataMsg
  else
    let M := fit (tr.map featureVec) (tr.map FeatureRow.pm25_value)
    let yhat := te.map (fun r => M (featureVec r))
    let yte := te.map FeatureRow.pm25_value
    .ok (M, { r2 := r2_score yte yhat
              rmse := Real.sqrt (mean_squared_error yte yhat)
              mae := mean_absolute_error yte yhat })

lemma tsAt_mono (df : List Obs) (hsort : List.Sorted (· ≤ ·) (df.map Obs.timestamp))
    {i j : ℕ} (hij : i ≤ j) (hj : j < df.length) :
    ((df.get? i).getD default).timestamp ≤ ((df.get? j).getD default).timestamp := by
  have hi : i < df.length := Nat.lt_of_le_of_lt hij hj
  have e1 : (df.get? i).getD default = df.get ⟨i, hi⟩ := by
    simp [List.getElem?_eq_getElem hi]
  have e2 : (df.get? j).getD default = df.get ⟨j, hj⟩ := by
    simp [List.getElem?_eq_getElem hj]
  rw [e1, e2]
  have hrel := hsort.rel_get_of_le
    (a := ⟨i, by simpa using hi⟩) (b := ⟨j, by simpa using hj⟩) (by simpa using hij)
  simpa [List.get_map] using hrel

lemma feats_eq_map_filter (cal : Calendar) (df : List Obs) :
    create_time_series_features cal df =
      ((List.range df.length).filter
        (fun i => rowComplete (mkFeatureRow cal df i))).map (mkFeatureRow cal df) := by
  unfold create_time_series_features
  exact filter_map_comm _ _ _

/-- The feature table of a timestamp-sorted series is itself sorted by
timestamp: the builder processes rows in input order and `dropna` only
deletes rows. -/
lemma feats_sorted (cal : Calendar) (df : List Obs)
    (hsort : List.Sorted (· ≤ ·) (df.map Obs.timestamp)) :
    List.Pairwise (fun a b : FeatureRow => a.timestamp ≤ b.timestamp)
      (create_time_series_features cal df) := by
  rw [feats_eq_map_filter, List.pairwise_map]
  have hidx : List.Pairwise (· < ·)
      ((List.range df.length).filter (fun i => rowComplete (mkFeatureRow cal df i))) :=
    List.Pairwise.sublist (List.filter_sublist _) (List.pairwise_lt_range df.length)
  refine hidx.imp_of_mem ?_
  intro i j hi hj hlt
  have hjr : j < df.length := List.mem_range.mp (List.mem_of_mem_filter hj)
  show ((df.get? i).getD default).timestamp ≤ ((df.get? j).getD default).timestamp
  exact tsAt_mono df hsort (Nat.le_of_lt hlt) hjr

/-- C5: training splits the feature table chronologically with no
shuffling; the first floor(0.8 times the row count) rows form the train
slice, the rest the test slice, their concatenation is the whole table in
order, every train timestamp is at most every test timestamp, and in
particular the last train timestamp is at most the first test timestamp. -/
theorem C5_chronological_split (cal : Calendar) (df : List Obs)
    (hsort : List.Sorted (· ≤ ·) (df.map Obs.timestamp)) (h5 : 5 ≤ df.length) :
    (trainTestSplit (create_time_series_features cal df)).1 ++
        (trainTestSplit (create_time_series_features cal df)).2 =
      create_time_series_features cal df ∧
    (trainTestSplit (create_time_series_features cal df)).1.length =
      Nat.floor ((0.8 : ℝ) * (create_time_series_features cal df).length) ∧
    (∀ a ∈ (trainTestSplit (create_time_series_features cal df)).1,
      ∀ b ∈ (trainTestSplit (create_time_series_features cal df)).2,
        a.timestamp ≤ b.timestamp) ∧
    ∀ a b, (trainTestSplit (create_time_series_features cal df)).1.getLast? = some a →
      (trainTestSplit (create_time_series_features cal df)).2.head? = some b →
        a.timestamp ≤ b.timestamp := by
  simp only [trainTestSplit]
  have hmem : ∀ a ∈ (create_time_series_features cal df).take
        ((create_time_series_features cal df).length * 4 / 5),
      ∀ b ∈ (create_time_series_features cal df).drop
        ((create_time_series_features cal df).length * 4 / 5),
        a.timestamp ≤ b.timestamp := by
    intro a ha b hb
    exact List.Sorted.rel_of_mem_take_of_mem_drop (feats_sorted cal df hsort) ha hb
  refine ⟨List.take_append_drop _ _, ?_, hmem, ?_⟩
  · rw [List.length_take]
    have hc : (0.8 : ℝ) * (create_time_series_features cal df).length =
        ((4 * (create_time_series_features cal df).length : ℕ) : ℝ) / ((5 : ℕ) : ℝ) := by
      push_cast; ring
    rw [hc, Nat.floor_div_nat, Nat.floor_natCast]
    omega
  · intro a b ha hb
    exact hmem a (List.mem_of_getLast?_eq_some ha) b
      (List.mem_of_mem_head? (Option.mem_def.mpr hb))

/-- A concrete dense daily sorted series of 35 observations. -/
noncomputable def dfC5 : List Obs :=
  (List.range 35).map fun (i : ℕ) => { timestamp := (i : ℤ), pm25_value := 1, location := "w" }

/-- C5 witness: the chronological-split facts instantiated on the concrete
sorted 35-row series. -/
theorem C5_chronological_split_witness :
    List.Sorted (· ≤ ·) (dfC5.map Obs.timestamp) ∧ 5 ≤ dfC5.length ∧
    ((trainTestSplit (create_time_series_features trivCal dfC5)).1 ++
        (trainTestSplit (create_time_series_features trivCal dfC5)).2 =
      create_time_series_features trivCal dfC5 ∧
    (trainTestSplit (create_time_series_features trivCal dfC5)).1.length =
      Nat.floor ((0.8 : ℝ) * (create_time_series_features trivCal dfC5).length) ∧
    (∀ a ∈ (trainTestSplit (create_time_series_features trivCal dfC5)).1,
      ∀ b ∈ (trainTestSplit (create_time_series_features trivCal dfC5)).2,
        a.timestamp ≤ b.timestamp) ∧
    ∀ a b, (trainTestSplit (create_time_series_features trivCal dfC5)).1.getLast? = some a →
      (trainTestSplit (create_time_series_features trivCal dfC5)).2.head? = some b →
        a.timestamp ≤ b.timestamp) := by
  have hsort : List.Sorted (· ≤ ·) (dfC5.map Obs.timestamp) := by
    have he : dfC5.map Obs.timestamp = (List.range 35).map (fun i : ℕ => (i : ℤ)) := by
      simp [dfC5, List.map_map]
    rw [he]
    refine List.pairwise_map.mpr ?_
    exact (List.pairwise_lt_range 35).imp (fun hab => by exact_mod_cast Nat.le_of_lt hab)
  have h5 : 5 ≤ dfC5.length := by simp [dfC5]
  exact ⟨hsort, h5, C5_chronological_split trivCal dfC5 hsort h5⟩

/-- A trivial concrete regressor-fitting black box for witnesses. -/
def trivFit : List (List ℝ) → List ℝ → (List ℝ → ℝ) := fun _ _ _ => 0

/-- C7: when the drop-incomplete-rows policy leaves the feature table
empty, the training slice is empty and training surfaces the
no-trainable-data error to its caller instead of returning a model. -/
theorem C7_no_trainable_data (fit : List (List ℝ) → List ℝ → (List ℝ → ℝ))
    (cal : Calendar) (df : List Obs)
    (h : create_time_series_features cal df = []) :
    train_pm25_forecasting_model fit cal df = .error noTrainableDataMsg := by
  simp [train_pm25_forecasting_model, trainTestSplit, h]

/-- A concrete series too short to yield any usable feature row. -/
noncomputable def dfC7 : List Obs := [{ timestamp := 0, pm25_value := 5, location := "w" }]

/-- C7 witness: a one-observation series leaves the feature table empty and
training returns the error. -/
theorem C7_no_trainable_data_witness :
    create_time_series_features trivCal dfC7 = [] ∧
    train_pm25_forecasting_model trivFit trivCal dfC7 = .error noTrainableDataMsg := by
  have h : create_time_series_features trivCal dfC7 = [] := by
    have hlen := create_features_length trivCal dfC7
    have : dfC7.length = 1 := by simp [dfC7]
    rw [this] at hlen
    exact List.length_eq_zero.mp (by omega)
  exact ⟨h, C7_no_trainable_data trivFit trivCal dfC7 h⟩

/-- Pandas `Series.tail(n)`: the trailing `n` rows (all rows when fewer). -/
def pandasTail {α : Type} (n : ℕ) (l : List α) : List α := l.drop (l.length - n)

/-- Slope of `numpy.polyfit(arange(len(ys)), ys, 1)` (line 179): the
least-squares slope of the values against their row index. -/
noncomputable def lsSlope (ys : List ℝ) : ℝ :=
  let n : ℝ := ys.length
  let xs := (List.range ys.length).map (fun i : ℕ => (i : ℝ))
  (n * ((xs.zip ys).map (fun q => q.1 * q.2)).sum - xs.sum * ys.sum) /
    (n * (xs.map (fun x => x ^ 2)).sum - xs.sum ^ 2)

/-- The single future feature row built at lines 153-174.  Fields that
pandas can leave as NaN when the recent window is too small (the lag-style
tail means, the tail standard deviation and the last observation) are
`Option ℝ`; `iloc[-1]` on an empty frame and a NaN reaching
`model.predict` would in fact raise, which no claim depends on. -/
structure PredRow where
  year : ℤ
  month : ℤ
  day_of_year : ℤ
  day_of_week : ℤ
  week_of_year : ℤ
  month_sin : ℝ
  month_cos : ℝ
  day_sin : ℝ
  day_cos : ℝ
  pm25_lag_1 : Option ℝ
  pm25_lag_7 : Option ℝ
  pm25_lag_30 : Option ℝ
  pm25_rolling_7 : Option ℝ
  pm25_rolling_30 : Option ℝ
  pm25_rolling_std_7 : Option ℝ
  days_since_start : ℤ

/-- The future row in `feature_cols` order, handed to `model.predict`
(line 176). -/
noncomputable def predRowVec (r : PredRow) : List ℝ :=
  [(r.year : ℝ), (r.month : ℝ), (r.day_of_year : ℝ), (r.day_of_week : ℝ),
    (r.week_of_year : ℝ), r.month_sin, r.month_cos, r.day_sin, r.day_cos,
    r.pm25_lag_1.getD 0, r.pm25_lag_7.getD 0, r.pm25_lag_30.getD 0,
    r.pm25_rolling_7.getD 0, r.pm25_rolling_30.getD 0, r.pm25_rolling_std_7.getD 0,
    (r.days_since_start : ℝ)]

/-- Lines 147-174: the future feature row.  The recent window is the
trailing 90 observations; every lag/rolling statistic is frozen at its
last known value; the calendar fields come from the future date; the day
offset spans from the first timestamp of the whole series. -/
noncomputable def buildFutureRow (cal : Calendar) (hist : List Obs) : PredRow :=
  let recent := pandasTail 90 hist
  let vals := recent.map Obs.pm25_value
  let future_date := listMaxZ (recent.map Obs.timestamp) + 5 * 365
  { year := cal.year future_date
    month := cal.month future_date
    day_of_year := cal.day_of_year future_date
    day_of_week := cal.day_of_week future_date
    week_of_year := cal.week_of_year future_date
    month_sin := Real.sin (2 * Real.pi * (cal.month future_date : ℝ) / 12)
    month_cos := Real.cos (2 * Real.pi * (cal.month future_date : ℝ) / 12)
    day_sin := Real.sin (2 * Real.pi * (cal.day_of_year future_date : ℝ) / 365)
    day_cos := Real.cos (2 * Real.pi * (cal.day_of_year future_date : ℝ) / 365)
    pm25_lag_1 := vals.getLast?
    pm25_lag_7 := seriesMean (pandasTail 7 vals)
    pm25_lag_30 := seriesMean (pandasTail 30 vals)
    pm25_rolling_7 := seriesMean (pandasTail 7 vals)
    pm25_rolling_30 := seriesMean (pandasTail 30 vals)
    pm25_rolling_std_7 := seriesStd (pandasTail 7 vals)
    days_since_start := future_date - listMinZ (hist.map Obs.timestamp) }

/-- The dictionary returned by `predict_pm25_in_5_years` (lines 183-193);
dates stay integer day numbers (`strftime` only formats them), and the
confidence bounds inherit the possible NaN of the recent window's
standard deviation. -/
structure ForecastOut where
  current_avg_pm25 : ℝ
  predicted_pm25_5y : ℝ
  prediction_date : ℤ
  current_date : ℤ
  annual_trend : ℝ
  five_year_trend : ℝ
  location : String
  confidence_interval_low : Option ℝ
  confidence_interval_high : Option ℝ

/-- Lines 146-193, `predict_pm25_in_5_years`.  `M` is the fitted model's
prediction function. -/
noncomputable def predict_pm25_in_5_years (cal : Calendar) (M : List ℝ → ℝ)
    (historical_df : List Obs) (location : String) : ForecastOut :=
  let recent := pandasTail 90 historical_df
  let vals := recent.map Obs.pm25_value
  let curr_mean := vals.sum / vals.length
  let curr_std := seriesStd vals
  let last_date := listMaxZ (recent.map Obs.timestamp)
  let future_date := last_date + 5 * 365
  let pred := M (predRowVec (buildFutureRow cal historical_df))
  let slope := lsSlope vals
  { current_avg_pm25 := pyRound 2 curr_mean
    predicted_pm25_5y := pyRound 2 pred
    prediction_date := future_date
    current_date := last_date
    annual_trend := pyRound 2 (slope * 365)
    five_year_trend := pyRound 2 (slope * 365 * 5)
    location := location
    confidence_interval_low := curr_std.map (fun s => pyRound 2 (pred - 1.96 * s))
    confidence_interval_high := curr_std.map (fun s => pyRound 2 (pred + 1.96 * s)) }

lemma getLast?_drop_of_lt {α : Type} :
    ∀ (l : List α) (k : ℕ), k < l.length → (l.drop k).getLast? = l.getLast? := by
  intro l
  induction l with
  | nil => intro k h; simp at h
  | cons a t ih =>
    intro k h
    cases k with
    | zero => rfl
    | succ k2 =>
      have hk : k2 < t.length := by simpa using h
      rw [List.drop_succ_cons, ih k2 hk]
      cases t with
      | nil => simp at hk
      | cons b t2 => exact (List.getLast?_cons_cons).symm

lemma foldl_max_sorted :
    ∀ (t : List ℤ) (a : ℤ), List.Sorted (· ≤ ·) (a :: t) →
      (a :: t).getLast? = some (t.foldl max a) := by
  intro t
  induction t with
  | nil => intro a _; rfl
  | cons b t2 ih =>
    intro a h
    have hab : a ≤ b := (List.pairwise_cons.mp h).1 b (by simp)
    have ht : List.Sorted (· ≤ ·) (b :: t2) := (List.pairwise_cons.mp h).2
    rw [List.getLast?_cons_cons, ih b ht, List.foldl_cons, max_eq_right hab]

lemma foldl_min_sorted :
    ∀ (t : List ℤ) (a : ℤ), List.Sorted (· ≤ ·) (a :: t) → t.foldl min a = a := by
  intro t
  induction t with
  | nil => intro a _; rfl
  | cons b t2 ih =>
    intro a h
    have hab : a ≤ b := (List.pairwise_cons.mp h).1 b (by simp)
    have h2 : List.Sorted (· ≤ ·) (a :: t2) := by
      refine List.pairwise_cons.mpr ⟨fun x hx => (List.pairwise_cons.mp h).1 x
        (List.mem_cons_of_mem b hx), ?_⟩
      exact (List.pairwise_cons.mp (List.pairwise_cons.mp h).2).2
    rw [List.foldl_cons, min_eq_left hab]
    exact ih a h2

/-- On a nonempty ascending series, `Series.max()` is the last element. -/
lemma listMaxZ_sorted (l : List ℤ) (hne : l ≠ []) (hsort : List.Sorted (· ≤ ·) l) :
    l.getLast? = some (listMaxZ l) := by
  obtain ⟨a, t, rfl⟩ := List.exists_cons_of_ne_nil hne
  exact foldl_max_sorted t a hsort

/-- On a nonempty ascending series, `Series.min()` is the first element. -/
lemma listMinZ_sorted (l : List ℤ) (hne : l ≠ []) (hsort : List.Sorted (· ≤ ·) l) :
    listMinZ l = l.head?.getD 0 := by
  obtain ⟨a, t, rfl⟩ := List.exists_cons_of_ne_nil hne
  show t.foldl min a = a
  exact foldl_min_sorted t a hsort

lemma pandasTail_map {α β : Type} (f : α → β) (n : ℕ) (l : List α) :
    (pandasTail n l).map f = pandasTail n (l.map f) := by
  simp [pandasTail, List.map_drop]

lemma pandasTail_length {α : Type} (n : ℕ) (l : List α) :
    (pandasTail n l).length = min n l.length := by
  simp [pandasTail]; omega

lemma pandasTail_getLast? {α : Type} (n : ℕ) (hn : 1 ≤ n) (l : List α) (hne : l ≠ []) :
    (pandasTail n l).getLast? = l.getLast? := by
  apply getLast?_drop_of_lt
  have : 0 < l.length := List.length_pos.mpr hne
  omega

/-- C2: on a nonempty timestamp-ascending series the extrapolator targets
the last observed date plus 5 years (5 times 365 days), fills the future
row with calendar/cyclical fields of the future date, lag-1 equal to the
most recent observation, lag-7/lag-30 and both rolling means equal to the
mean of the last 7/30/7/30 values of the 90-row recent window, the 7-row
statistic equal to the standard deviation of the last 7 recent values, and
the day offset equal to the days between the future date and the first
timestamp of the series; `annual_trend` is the least-squares slope over
the recent window times 365 and `five_year_trend` is that times 5 (both
carry the 2-decimal display rounding of the output dictionary). -/
theorem C2_long_horizon_extrapolator (cal : Calendar) (M : List ℝ → ℝ)
    (hist : List Obs) (loc : String) (hne : hist ≠ [])
    (hsort : List.Sorted (· ≤ ·) (hist.map Obs.timestamp)) :
    (predict_pm25_in_5_years cal M hist loc).prediction_date =
      (hist.map Obs.timestamp).getLast?.getD 0 + 5 * 365 ∧
    (predict_pm25_in_5_years cal M hist loc).current_date =
      (hist.map Obs.timestamp).getLast?.getD 0 ∧
    (buildFutureRow cal hist).year =
      cal.year ((hist.map Obs.timestamp).getLast?.getD 0 + 5 * 365) ∧
    (buildFutureRow cal hist).month =
      cal.month ((hist.map Obs.timestamp).getLast?.getD 0 + 5 * 365) ∧
    (buildFutureRow cal hist).day_of_year =
      cal.day_of_year ((hist.map Obs.timestamp).getLast?.getD 0 + 5 * 365) ∧
    (buildFutureRow cal hist).day_of_week =
      cal.day_of_week ((hist.map Obs.timestamp).getLast?.getD 0 + 5 * 365) ∧
    (buildFutureRow cal hist).week_of_year =
      cal.week_of_year ((hist.map Obs.timestamp).getLast?.getD 0 + 5 * 365) ∧
    (buildFutureRow cal hist).month_sin =
      Real.sin (2 * Real.pi *
        ((cal.month ((hist.map Obs.timestamp).getLast?.getD 0 + 5 * 365) : ℤ) : ℝ) / 12) ∧
    (buildFutureRow cal hist).month_cos =
      Real.cos (2 * Real.pi *
        ((cal.month ((hist.map Obs.timestamp).getLast?.getD 0 + 5 * 365) : ℤ) : ℝ) / 12) ∧
    (buildFutureRow cal hist).day_sin =
      Real.sin (2 * Real.pi *
        ((cal.day_of_year ((hist.map Obs.timestamp).getLast?.getD 0 + 5 * 365) : ℤ) : ℝ) / 365) ∧
    (buildFutureRow cal hist).day_cos =
      Real.cos (2 * Real.pi *
        ((cal.day_of_year ((hist.map Obs.timestamp).getLast?.getD 0 + 5 * 365) : ℤ) : ℝ) / 365) ∧
    (buildFutureRow cal hist).pm25_lag_1 = (hist.map Obs.pm25_value).getLast? ∧
    (buildFutureRow cal hist).pm25_lag_7 =
      seriesMean (pandasTail 7 ((pandasTail 90 hist).map Obs.pm25_value)) ∧
    (buildFutureRow cal hist).pm25_lag_30 =
      seriesMean (pandasTail 30 ((pandasTail 90 hist).map Obs.pm25_value)) ∧
    (buildFutureRow cal hist).pm25_rolling_7 =
      seriesMean (pandasTail 7 ((pandasTail 90 hist).map Obs.pm25_value)) ∧
    (buildFutureRow cal hist).pm25_rolling_30 =
      seriesMean (pandasTail 30 ((pandasTail 90 hist).map Obs.pm25_value)) ∧
    (buildFutureRow cal hist).pm25_rolling_std_7 =
      seriesStd (pandasTail 7 ((pandasTail 90 hist).map Obs.pm25_value)) ∧
    (buildFutureRow cal hist).days_since_start =
      ((hist.map Obs.timestamp).getLast?.getD 0 + 5 * 365) -
        (hist.map Obs.timestamp).head?.getD 0 ∧
    (predict_pm25_in_5_years cal M hist loc).annual_trend =
      pyRound 2 (lsSlope ((pandasTail 90 hist).map Obs.pm25_value) * 365) ∧
    (predict_pm25_in_5_years cal M hist loc).five_year_trend =
      pyRound 2 (lsSlope ((pandasTail 90 hist).map Obs.pm25_value) * 365 * 5) := by
  have hmne : hist.map Obs.timestamp ≠ [] := by
    simpa using hne
  have htne : pandasTail 90 (hist.map Obs.timestamp) ≠ [] := by
    have h1 : 0 < (hist.map Obs.timestamp).length := List.length_pos.mpr hmne
    intro hc
    have h3 : (pandasTail 90 (hist.map Obs.timestamp)).length = 0 := by rw [hc]; rfl
    rw [pandasTail_length] at h3
    omega
  have htsort : List.Sorted (· ≤ ·) (pandasTail 90 (hist.map Obs.timestamp)) :=
    List.Pairwise.sublist (List.drop_sublist _ _) hsort
  have hmax : listMaxZ ((pandasTail 90 hist).map Obs.timestamp) =
      (hist.map Obs.timestamp).getLast?.getD 0 := by
    rw [pandasTail_map]
    have he := listMaxZ_sorted _ htne htsort
    have hl := pandasTail_getLast? 90 (by norm_num) (hist.map Obs.timestamp) hmne
    rw [he] at hl
    rw [← hl]
    rfl
  have hmin : listMinZ (hist.map Obs.timestamp) =
      (hist.map Obs.timestamp).head?.getD 0 :=
    listMinZ_sorted _ hmne hsort
  have hlag : ((pandasTail 90 hist).map Obs.pm25_value).getLast? =
      (hist.map Obs.pm25_value).getLast? := by
    rw [pandasTail_map]
    exact pandasTail_getLast? 90 (by norm_num) (hist.map Obs.pm25_value) (by simpa using hne)
  simp only [predict_pm25_in_5_years, buildFutureRow, hmax, hmin, hlag]
  repeat any_goals apply And.intro
  all_goals first
  | rfl
  | trivial

/-- A concrete two-row ascending series for the C2 instantiation. -/
noncomputable def dfC2 : List Obs :=
  [{ timestamp := 0, pm25_value := 1, location := "w" },
   { timestamp := 1, pm25_value := 2, location := "w" }]

/-- A trivial concrete model prediction function for witnesses. -/
def trivM : List ℝ → ℝ := fun _ => 0

/-- C2 witness: the extrapolator facts instantiated on the concrete
two-row ascending series. -/
theorem C2_long_horizon_extrapolator_witness :
    dfC2 ≠ [] ∧ List.Sorted (· ≤ ·) (dfC2.map Obs.timestamp) ∧
    ((predict_pm25_in_5_years trivCal trivM dfC2 "w").prediction_date =
      (dfC2.map Obs.timestamp).getLast?.getD 0 + 5 * 365 ∧
    (predict_pm25_in_5_years trivCal trivM dfC2 "w").current_date =
      (dfC2.map Obs.timestamp).getLast?.getD 0 ∧
    (buildFutureRow trivCal dfC2).year =
      trivCal.year ((dfC2.map Obs.timestamp).getLast?.getD 0 + 5 * 365) ∧
    (buildFutureRow trivCal dfC2).month =
      trivCal.month ((dfC2.map Obs.timestamp).getLast?.getD 0 + 5 * 365) ∧
    (buildFutureRow trivCal dfC2).day_of_year =
      trivCal.day_of_year ((dfC2.map Obs.timestamp).getLast?.getD 0 + 5 * 365) ∧
    (buildFutureRow trivCal dfC2).day_of_week =
      trivCal.day_of_week ((dfC2.map Obs.timestamp).getLast?.getD 0 + 5 * 365) ∧
    (buildFutureRow trivCal dfC2).week_of_year =
      trivCal.week_of_year ((dfC2.map Obs.timestamp).getLast?.getD 0 + 5 * 365) ∧
    (buildFutureRow trivCal dfC2).month_sin =
      Real.sin (2 * Real.pi *
        ((trivCal.month ((dfC2.map Obs.timestamp).getLast?.getD 0 + 5 * 365) : ℤ) : ℝ) / 12) ∧
    (buildFutureRow trivCal dfC2).month_cos =
      Real.cos (2 * Real.pi *
        ((trivCal.month ((dfC2.map Obs.timestamp).getLast?.getD 0 + 5 * 365) : ℤ) : ℝ) / 12) ∧
    (buildFutureRow trivCal dfC2).day_sin =
      Real.sin (2 * Real.pi *
        ((trivCal.day_of_year ((dfC2.map Obs.timestamp).getLast?.getD 0 + 5 * 365) : ℤ) : ℝ) / 365) ∧
    (buildFutureRow trivCal dfC2).day_cos =
      Real.cos (2 * Real.pi *
        ((trivCal.day_of_year ((dfC2.map Obs.timestamp).getLast?.getD 0 + 5 * 365) : ℤ) : ℝ) / 365) ∧
    (buildFutureRow trivCal dfC2).pm25_lag_1 = (dfC2.map Obs.pm25_value).getLast? ∧
    (buildFutureRow trivCal dfC2).pm25_lag_7 =
      seriesMean (pandasTail 7 ((pandasTail 90 dfC2).map Obs.pm25_value)) ∧
    (buildFutureRow trivCal dfC2).pm25_lag_30 =
      seriesMean (pandasTail 30 ((pandasTail 90 dfC2).map Obs.pm25_value)) ∧
    (buildFutureRow trivCal dfC2).pm25_rolling_7 =
      seriesMean (pandasTail 7 ((pandasTail 90 dfC2).map Obs.pm25_value)) ∧
    (buildFutureRow trivCal dfC2).pm25_rolling_30 =
      seriesMean (pandasTail 30 ((pandasTail 90 dfC2).map Obs.pm25_value)) ∧
    (buildFutureRow trivCal dfC2).pm25_rolling_std_7 =
      seriesStd (pandasTail 7 ((pandasTail 90 dfC2).map Obs.pm25_value)) ∧
    (buildFutureRow trivCal dfC2).days_since_start =
      ((dfC2.map Obs.timestamp).getLast?.getD 0 + 5 * 365) -
        (dfC2.map Obs.timestamp).head?.getD 0 ∧
    (predict_pm25_in_5_years trivCal trivM dfC2 "w").annual_trend =
      pyRound 2 (lsSlope ((pandasTail 90 dfC2).map Obs.pm25_value) * 365) ∧
    (predict_pm25_in_5_years trivCal trivM dfC2 "w").five_year_trend =
      pyRound 2 (lsSlope ((pandasTail 90 dfC2).map Obs.pm25_value) * 365 * 5)) := by
  have hne : dfC2 ≠ [] := by simp [dfC2]
  have hsort : List.Sorted (· ≤ ·) (dfC2.map Obs.timestamp) := by
    simp [dfC2]
  exact ⟨hne, hsort, C2_long_horizon_extrapolator trivCal trivM dfC2 "w" hne hsort⟩

/-- C8 evaluates the extrapolator at its failing input: on a series with a
single observation the recent window holds one value, its sample standard
deviation is NaN (modelled `none`), and lines 191-192 propagate it straight
into both confidence-interval fields instead of resolving a defined
special case.  This contradicts the spec requirement (sections 4.4 and 7)
of a well-defined fallback such as a zero-width band. -/
theorem C8_undefined_ci_on_short_series (cal : Calendar) (M : List ℝ → ℝ) (loc : String) :
    (predict_pm25_in_5_years cal M
        [{ timestamp := 0, pm25_value := 10, location := loc }] loc).confidence_interval_low =
      none ∧
    (predict_pm25_in_5_years cal M
        [{ timestamp := 0, pm25_value := 10, location := loc }] loc).confidence_interval_high =
      none := by
  constructor <;> rfl

/-- The record returned by the pipeline entry point (line 237). -/
structure PipelineResult where
  location : String
  pm25 : ForecastOut
  fev1 : HealthImpact
  metrics : Metrics

/-- Lines 223-237, `predict_lung_health_5_years`.  The live fetch
(lines 31-76) returns an empty frame both on a fetch error and on an empty
result set, so its outcome is modelled by the `fetched` argument; an empty
`fetched` is exactly the fetch-failed-or-no-rows case. -/
noncomputable def predict_lung_health_5_years (cal : Calendar) (gauss : ℕ → ℝ)
    (fit : List (List ℝ) → List ℝ → (List ℝ → ℝ)) (location : String)
    (use_real_data : Bool) (days_back : ℕ) (fetched : List Obs) (now : ℤ) :
    Except String PipelineResult :=
  if location = "" then .error "Location is required"
  else
    let hist := if use_real_data then
        (if fetched.isEmpty then
          generate_synthetic_historical_data gauss location days_back now
         else fetched)
      else generate_synthetic_historical_data gauss location days_back now
    (train_pm25_forecasting_model fit cal hist).map fun mm =>
      let pm25_pred := predict_pm25_in_5_years cal mm.1 hist location
      { location := location
        pm25 := pm25_pred
        fev1 := calculate_fev1_from_predicted_pm25 pm25_pred.predicted_pm25_5y
        metrics := mm.2 }

lemma synthetic_length (gauss : ℕ → ℝ) (loc : String) (days : ℕ) (now : ℤ) :
    (generate_synthetic_historical_data gauss loc days now).length = days := by
  simp [generate_synthetic_historical_data]

lemma seriesStd_isSome_iff (l : List ℝ) : (seriesStd l).isSome ↔ 2 ≤ l.length := by
  unfold seriesStd
  split_ifs with h <;> simp <;> omega

/-- C6: with real-data mode requested and the live fetch failed or empty,
the pipeline does not raise for any non-empty location: it falls back to
the synthetic generator (365 days by default), trains successfully, and
returns a complete result record whose confidence-interval fields are both
defined. -/
theorem C6_fallback_produces_result (cal : Calendar) (gauss : ℕ → ℝ)
    (fit : List (List ℝ) → List ℝ → (List ℝ → ℝ)) (loc : String) (now : ℤ)
    (hloc : ¬ loc = "") :
    ∃ r : PipelineResult,
      predict_lung_health_5_years cal gauss fit loc true 365 [] now = .ok r ∧
      r.pm25.confidence_interval_low.isSome ∧
      r.pm25.confidence_interval_high.isSome := by
  have hlen : (generate_synthetic_historical_data gauss loc 365 now).length = 365 :=
    synthetic_length gauss loc 365 now
  have hfl : (create_time_series_features cal
      (generate_synthetic_historical_data gauss loc 365 now)).length = 335 := by
    rw [create_features_length, hlen]
  have htr : ¬ ((trainTestSplit (create_time_series_features cal
      (generate_synthetic_historical_data gauss loc 365 now))).1.isEmpty = true) := by
    rw [List.isEmpty_iff_length_eq_zero]
    simp only [trainTestSplit, List.length_take, hfl]
    norm_num
  have hok : ∃ Mm, train_pm25_forecasting_model fit cal
      (generate_synthetic_historical_data gauss loc 365 now) = .ok Mm := by
    simp only [train_pm25_forecasting_model]
    rw [if_neg htr]
    exact ⟨_, rfl⟩
  obtain ⟨Mm, hok⟩ := hok
  have hci : ∀ M₀ : List ℝ → ℝ,
      ((predict_pm25_in_5_years cal M₀
        (generate_synthetic_historical_data gauss loc 365 now) loc).confidence_interval_low).isSome ∧
      ((predict_pm25_in_5_years cal M₀
        (generate_synthetic_historical_data gauss loc 365 now) loc).confidence_interval_high).isSome := by
    intro M₀
    have hv : ((pandasTail 90 (generate_synthetic_historical_data gauss loc 365 now)).map
        Obs.pm25_value).length = 90 := by
      rw [List.length_map, pandasTail_length, hlen]
      omega
    constructor <;>
      simp only [predict_pm25_in_5_years, Option.isSome_map'] <;>
      rw [seriesStd_isSome_iff, hv] <;> norm_num
  refine ⟨{ location := loc
            pm25 := predict_pm25_in_5_years cal Mm.1
              (generate_synthetic_historical_data gauss loc 365 now) loc
            fev1 := calculate_fev1_from_predicted_pm25
              (predict_pm25_in_5_years cal Mm.1
                (generate_synthetic_historical_data gauss loc 365 now) loc).predicted_pm25_5y
            metrics := Mm.2 }, ?_, (hci Mm.1).1, (hci Mm.1).2⟩
  simp only [predict_lung_health_5_years, if_neg hloc, List.isEmpty_nil, if_true]
  rw [hok]
  rfl

/-- C6 witness: the fallback pipeline succeeds at the concrete location
Testville with the trivial calendar, noise and regressor. -/
theorem C6_fallback_produces_result_witness :
    ¬ ("Testville" = "") ∧
    ∃ r : PipelineResult,
      predict_lung_health_5_years trivCal (fun _ => 0) trivFit "Testville" true 365 [] 0 =
        .ok r ∧
      r.pm25.confidence_interval_low.isSome ∧
      r.pm25.confidence_interval_high.isSome := by
  have hloc : ¬ ("Testville" = "") := by simp
  exact ⟨hloc, C6_fallback_produces_result trivCal (fun _ => 0) trivFit "Testville" 0 hloc⟩

end AtmosAlert
